import Mathlib

/-!
Verification of the wrapped_mono foreign-handle and marshaling layer.

Shallow embedding conventions:
* Raw foreign pointers are modelled as `Nat`; the null pointer is `0`.
* The Mono runtime sits behind a C ABI and is external to this crate; it is
  modelled as a `Runtime` record of oracles, one per `mono_*` binding the
  wrapped code calls.  A cursor-based enumeration binding
  (`mono_class_get_fields` and friends) is modelled by the finite sequence of
  results successive next-calls produce when the cursor is seeded to null;
  calls past the end of that sequence return null (exhaustion).
* Native strings (`&str`) and foreign C strings are modelled as byte lists
  (`List Nat`).  `CString::new` fails (and the wrapped code's `expect` then
  aborts) exactly when the byte list contains an interior NUL byte.
* A computation that can abort through `expect` returns an `Outcome`;
  `Outcome.panicked` marks the abort.  Functions that issue foreign calls
  also return the list of `FCall`s issued, so that "no foreign call was made"
  is expressible.
* The foreign string heap (buffers owned by the runtime) is a partial map
  `Heap` from pointers to byte contents; releasing a buffer removes its entry.
-/

namespace WrappedMono

/-- Raw foreign pointer; `0` is the null pointer. -/
abbrev Ptr := Nat

/-- Foreign string heap: runtime-owned NUL-terminated buffers, keyed by their
address; the stored bytes exclude the terminator.  `none` means no live
allocation at that address. -/
abbrev Heap := Ptr → Option (List Nat)

/-- Remove (deallocate) the buffer at address `p`. -/
def Heap.free (h : Heap) (p : Ptr) : Heap :=
  fun q => if q = p then none else h q

/-- Result of a wrapped call that may abort via `expect`. -/
inductive Outcome (α : Type) where
  | ok : α → Outcome α
  | panicked : Outcome α
deriving DecidableEq

/-- A call issued across the foreign C ABI, with the exact arguments passed. -/
inductive FCall where
  | classFromName (image : Ptr) (nspace name : List Nat)
  | classGetFieldFromName (cls : Ptr) (name : List Nat)
  | domainAssemblyOpen (dom : Ptr) (path : List Nat)
  | domainSetConfig (dom : Ptr) (baseDir fname : List Nat)
deriving DecidableEq

/-- The foreign Mono runtime, as the oracle record of every binding the
embedded fragment calls.  Enumeration bindings are modelled by the sequence of
pointers successive next-calls yield from the null-seeded cursor. -/
structure Runtime where
  class_from_name : Ptr → List Nat → List Nat → Ptr
  class_from_name_case : Ptr → List Nat → List Nat → Ptr
  class_get_field_from_name : Ptr → List Nat → Ptr
  class_is_assignable_from : Ptr → Ptr → Int
  class_implements_interface : Ptr → Ptr → Int
  class_name : Ptr → Ptr
  class_namespace : Ptr → Ptr
  field_name : Ptr → Ptr
  class_fields_stream : Ptr → List Ptr
  class_methods_stream : Ptr → List Ptr
  class_nested_stream : Ptr → List Ptr
  class_interfaces_stream : Ptr → List Ptr
  class_num_fields : Ptr → Int
  class_num_methods : Ptr → Int
  domain_assembly_open : Ptr → List Nat → Ptr
  object_get_domain : Ptr → Ptr
  field_get_value_object : Ptr → Ptr → Ptr → Ptr

/-- `CString::new(bytes)`: `none` on an interior NUL byte, otherwise the bytes.
The wrapped code always follows it with `expect`, so `none` becomes an abort. -/
def cstringNew (s : List Nat) : Option (List Nat) :=
  if 0 ∈ s then none else some s

/-- `Class` wrapper (src/class.rs): a raw `*mut MonoClass`. -/
structure Class where
  class_ptr : Ptr
deriving DecidableEq

/-- `Class::get_ptr` (src/class.rs lines 14-16). -/
def Class.get_ptr (c : Class) : Ptr :=
  c.class_ptr

/-- `Class::from_ptr` (src/class.rs lines 20-25): `None` on null, else wraps. -/
def Class.from_ptr (p : Ptr) : Option Class :=
  if p = 0 then none else some { class_ptr := p }

/-- `ClassField` wrapper (src/class.rs): a raw `*mut MonoClassField`. -/
structure ClassField where
  cf_ptr : Ptr
deriving DecidableEq

/-- `ClassField::from_ptr` (src/class.rs lines 348-353): `None` on null. -/
def ClassField.from_ptr (p : Ptr) : Option ClassField :=
  if p = 0 then none else some { cf_ptr := p }

/-- `ClassField::get_ptr` (src/class.rs lines 355-357). -/
def ClassField.get_ptr (f : ClassField) : Ptr :=
  f.cf_ptr

/-- `Method` wrapper. `Method::from_ptr` itself is not under src/; it is
modelled exactly like the other handle constructors (spec: a handle from a
null foreign pointer is absent). -/
structure Method where
  m_ptr : Ptr
deriving DecidableEq

/-- Modelled from the spec: `Method::from_ptr` (src/method.rs is not under
src/) follows the uniform handle contract — absent on null, wrap otherwise. -/
def Method.from_ptr (p : Ptr) : Option Method :=
  if p = 0 then none else some { m_ptr := p }

/-- `Domain` wrapper (src/domain.rs): a raw `*mut MonoDomain`. -/
structure Domain where
  ptr : Ptr
deriving DecidableEq

/-- `Domain::from_ptr` (src/domain.rs lines 46-48): wraps the given pointer
unconditionally — there is no null check in the source. -/
def Domain.from_ptr (p : Ptr) : Domain :=
  { ptr := p }

/-- `Domain::get_ptr` (src/domain.rs lines 50-52). -/
def Domain.get_ptr (d : Domain) : Ptr :=
  d.ptr

/-- `Assembly` wrapper.  Modelled from the spec: `Assembly::from_ptr`
(src/assembly.rs is not under src/) is the unchecked constructor used by
`Domain::assembly_open` after its own null test — it wraps the pointer. -/
structure Assembly where
  a_ptr : Ptr
deriving DecidableEq

/-- Modelled from the spec: `Assembly::from_ptr`, unchecked wrap (the null
check is performed by its caller `Domain::assembly_open`). -/
def Assembly.from_ptr (p : Ptr) : Assembly :=
  { a_ptr := p }

/-- `impl PartialEq for Class` (src/class.rs lines 333-337): raw pointer
comparison. -/
def Class.eq (a b : Class) : Bool :=
  a.class_ptr == b.class_ptr

/-- `impl PartialEq for Domain` (src/domain.rs lines 62-66): raw pointer
comparison. -/
def Domain.eq (a b : Domain) : Bool :=
  a.ptr == b.ptr

/-- `Class::is_assignable_from` (src/class.rs lines 140-142).  The source
passes `self.class_ptr` for BOTH arguments of
`mono_class_is_assignable_from`; the `other` argument is never forwarded. -/
def Class.is_assignable_from (rt : Runtime) (self other : Class) : Bool :=
  rt.class_is_assignable_from self.class_ptr self.class_ptr != 0

/-- `Class::implements_interface` (src/class.rs lines 136-138). -/
def Class.implements_interface (rt : Runtime) (self iface : Class) : Bool :=
  rt.class_implements_interface self.class_ptr iface.class_ptr != 0

/-- A UTF-8 continuation byte. -/
def isCont (b : Nat) : Bool :=
  0x80 ≤ b && b ≤ 0xBF

/-- UTF-8 validity of a byte sequence, per RFC 3629 as enforced by
`str::from_utf8` (shortest-form only, no surrogates, max U+10FFFF).  This
models the decoding check inside `CStr::to_str`. -/
def validUtf8 : List Nat → Bool
  | [] => true
  | b :: rest =>
    if b ≤ 0x7F then validUtf8 rest
    else if 0xC2 ≤ b && b ≤ 0xDF then
      match rest with
      | c1 :: r => isCont c1 && validUtf8 r
      | [] => false
    else if b = 0xE0 then
      match rest with
      | c1 :: c2 :: r => (0xA0 ≤ c1 && c1 ≤ 0xBF) && isCont c2 && validUtf8 r
      | _ => false
    else if (0xE1 ≤ b && b ≤ 0xEC) || b = 0xEE || b = 0xEF then
      match rest with
      | c1 :: c2 :: r => isCont c1 && isCont c2 && validUtf8 r
      | _ => false
    else if b = 0xED then
      match rest with
      | c1 :: c2 :: r => (0x80 ≤ c1 && c1 ≤ 0x9F) && isCont c2 && validUtf8 r
      | _ => false
    else if b = 0xF0 then
      match rest with
      | c1 :: c2 :: c3 :: r =>
        (0x90 ≤ c1 && c1 ≤ 0xBF) && isCont c2 && isCont c3 && validUtf8 r
      | _ => false
    else if 0xF1 ≤ b && b ≤ 0xF3 then
      match rest with
      | c1 :: c2 :: c3 :: r => isCont c1 && isCont c2 && isCont c3 && validUtf8 r
      | _ => false
    else if b = 0xF4 then
      match rest with
      | c1 :: c2 :: c3 :: r =>
        (0x80 ≤ c1 && c1 ≤ 0x8F) && isCont c2 && isCont c3 && validUtf8 r
      | _ => false
    else false

/-- `Class::get_name` (src/class.rs lines 63-69): `CString::from_raw` on the
runtime-owned name pointer, decode via `to_str().expect(..)`, then
`into_raw()` so the buffer is NOT released on success.  On a decode failure
the `expect` aborts and the unwind drops the `CString`, releasing the buffer.
Reading an address with no live buffer is foreign undefined behavior,
modelled as an abort leaving the heap as is. -/
def Class.get_name (rt : Runtime) (h : Heap) (c : Class) :
    Outcome (List Nat) × Heap :=
  let p := rt.class_name c.class_ptr
  match h p with
  | none => (Outcome.panicked, h)
  | some bytes =>
    if validUtf8 bytes then (Outcome.ok bytes, h)
    else (Outcome.panicked, Heap.free h p)

/-- `Class::get_namespace` (src/class.rs lines 90-96): same borrowed-copy
shape as `Class::get_name`, ending in `into_raw()` (buffer kept). -/
def Class.get_namespace (rt : Runtime) (h : Heap) (c : Class) :
    Outcome (List Nat) × Heap :=
  let p := rt.class_namespace c.class_ptr
  match h p with
  | none => (Outcome.panicked, h)
  | some bytes =>
    if validUtf8 bytes then (Outcome.ok bytes, h)
    else (Outcome.panicked, Heap.free h p)

/-- `ClassField::get_name` (src/class.rs lines 366-371): `CString::from_raw`
on the runtime-owned name pointer, decode, then `drop(cstr)` — the `CString`
is dropped, DEALLOCATING the runtime-owned buffer (unlike `Class::get_name`,
which gives ownership back with `into_raw`). -/
def ClassField.get_name (rt : Runtime) (h : Heap) (f : ClassField) :
    Outcome (List Nat) × Heap :=
  let p := rt.field_name f.cf_ptr
  match h p with
  | none => (Outcome.panicked, h)
  | some bytes =>
    if validUtf8 bytes then (Outcome.ok bytes, Heap.free h p)
    else (Outcome.panicked, Heap.free h p)

/-- `Class::from_name` (src/class.rs lines 31-36): build the two `CString`s
(abort on interior NUL before any foreign call), call
`mono_class_from_name`, wrap with `Class::from_ptr`. -/
def Class.from_name (rt : Runtime) (image : Ptr) (nspace name : List Nat) :
    Outcome (Option Class) × List FCall :=
  match cstringNew nspace with
  | none => (Outcome.panicked, [])
  | some ns =>
    match cstringNew name with
    | none => (Outcome.panicked, [])
    | some nm =>
      let res := rt.class_from_name image ns nm
      (Outcome.ok (Class.from_ptr res), [FCall.classFromName image ns nm])

/-- `Class::get_field_from_name` (src/class.rs lines 56-61). -/
def Class.get_field_from_name (rt : Runtime) (c : Class) (name : List Nat) :
    Outcome (Option ClassField) × List FCall :=
  match cstringNew name with
  | none => (Outcome.panicked, [])
  | some nm =>
    let res := rt.class_get_field_from_name c.class_ptr nm
    (Outcome.ok (ClassField.from_ptr res), [FCall.classGetFieldFromName c.class_ptr nm])

/-- `Domain::assembly_open` (src/domain.rs lines 12-24): `CString` from the
path (abort on interior NUL before the foreign call), call
`mono_domain_assembly_open`, `None` on a null result, else wrap. -/
def Domain.assembly_open (rt : Runtime) (d : Domain) (path : List Nat) :
    Outcome (Option Assembly) × List FCall :=
  match cstringNew path with
  | none => (Outcome.panicked, [])
  | some cs =>
    let p := rt.domain_assembly_open d.ptr cs
    if p = 0 then (Outcome.ok none, [FCall.domainAssemblyOpen d.ptr cs])
    else (Outcome.ok (some (Assembly.from_ptr p)), [FCall.domainAssemblyOpen d.ptr cs])

/-- `Domain::set_config` (src/domain.rs lines 36-42): both `CString`s built
(abort on interior NUL) before `mono_domain_set_config` is issued. -/
def Domain.set_config (d : Domain) (baseDir fname : List Nat) :
    Outcome Unit × List FCall :=
  match cstringNew baseDir with
  | none => (Outcome.panicked, [])
  | some bd =>
    match cstringNew fname with
    | none => (Outcome.panicked, [])
    | some fn => (Outcome.ok (), [FCall.domainSetConfig d.ptr bd fn])

/-- The `while let Some(cf) = ClassField::from_ptr(mono_class_get_fields(..))`
loop of `Class::get_fields` (src/class.rs lines 298-307), over the sequence
of next-call results from the null-seeded cursor: push while the wrap
succeeds, stop at the first null. -/
def Class.get_fields_loop : List Ptr → List ClassField
  | [] => []
  | p :: rest =>
    match ClassField.from_ptr p with
    | none => []
    | some cf => cf :: Class.get_fields_loop rest

/-- `Class::get_fields` (src/class.rs lines 298-307): cursor `gptr` seeded to
null, loop until the first null field pointer. -/
def Class.get_fields (rt : Runtime) (c : Class) : List ClassField :=
  Class.get_fields_loop (rt.class_fields_stream c.class_ptr)

/-- Loop of `Class::get_methods` (src/class.rs lines 309-318). -/
def Class.get_methods_loop : List Ptr → List Method
  | [] => []
  | p :: rest =>
    match Method.from_ptr p with
    | none => []
    | some m => m :: Class.get_methods_loop rest

/-- `Class::get_methods` (src/class.rs lines 309-318). -/
def Class.get_methods (rt : Runtime) (c : Class) : List Method :=
  Class.get_methods_loop (rt.class_methods_stream c.class_ptr)

/-- Loop of `Class::get_nested_types` (src/class.rs lines 321-330) and of
`Class::get_interfaces` (src/class.rs lines 79-88): both wrap with
`Class::from_ptr`. -/
def Class.get_classes_loop : List Ptr → List Class
  | [] => []
  | p :: rest =>
    match Class.from_ptr p with
    | none => []
    | some c => c :: Class.get_classes_loop rest

/-- `Class::get_nested_types` (src/class.rs lines 321-330). -/
def Class.get_nested_types (rt : Runtime) (c : Class) : List Class :=
  Class.get_classes_loop (rt.class_nested_stream c.class_ptr)

/-- `Class::get_interfaces` (src/class.rs lines 79-88). -/
def Class.get_interfaces (rt : Runtime) (c : Class) : List Class :=
  Class.get_classes_loop (rt.class_interfaces_stream c.class_ptr)

/-- `Class::num_fields` (src/class.rs lines 154-156). -/
def Class.num_fields (rt : Runtime) (c : Class) : Int :=
  rt.class_num_fields c.class_ptr

/-- `Class::num_methods` (src/class.rs lines 158-160). -/
def Class.num_methods (rt : Runtime) (c : Class) : Int :=
  rt.class_num_methods c.class_ptr

/-- `Object` wrapper.  Modelled from the spec: src/object.rs is not under
src/; per the uniform handle contract, `Object::from_ptr` is absent on null
and wraps otherwise. -/
structure Object where
  obj_ptr : Ptr
deriving DecidableEq

/-- Modelled from the spec: `Object::from_ptr` (src/object.rs not under
src/), uniform handle contract. -/
def Object.from_ptr (p : Ptr) : Option Object :=
  if p = 0 then none else some { obj_ptr := p }

/-- Modelled from the spec: `Object::get_ptr` (src/object.rs not under src/),
pure pointer projection. -/
def Object.get_ptr (o : Object) : Ptr :=
  o.obj_ptr

/-- Modelled from the spec: `ObjectTrait::get_domain` (src/object.rs not
under src/) — the Domain owning the instance, obtained from the instance
itself via `mono_object_get_domain`. -/
def Object.get_domain (rt : Runtime) (o : Object) : Domain :=
  Domain.from_ptr (rt.object_get_domain o.obj_ptr)

/-- The arguments of one `mono_field_get_value_object` foreign call. -/
structure FieldReadCall where
  dom : Ptr
  field : Ptr
  obj : Ptr
deriving DecidableEq

/-- `ClassField::get_value_object` (src/class.rs lines 403-409): take the
Domain from the instance itself (`obj.get_domain()`), issue the foreign read
with that domain, wrap the result with `Object::from_ptr`.  The issued call's
arguments are returned alongside the result. -/
def ClassField.get_value_object (rt : Runtime) (f : ClassField) (obj : Object) :
    Option Object × FieldReadCall :=
  let dom := Object.get_domain rt obj
  let res := rt.field_get_value_object dom.ptr f.cf_ptr obj.obj_ptr
  (Object.from_ptr res, { dom := dom.ptr, field := f.cf_ptr, obj := obj.obj_ptr })

/-- A runtime whose every oracle answers null/zero/empty; concrete instances
for evaluation are built from it by field update. -/
def rtBase : Runtime where
  class_from_name := fun _ _ _ => 0
  class_from_name_case := fun _ _ _ => 0
  class_get_field_from_name := fun _ _ => 0
  class_is_assignable_from := fun _ _ => 0
  class_implements_interface := fun _ _ => 0
  class_name := fun _ => 0
  class_namespace := fun _ => 0
  field_name := fun _ => 0
  class_fields_stream := fun _ => []
  class_methods_stream := fun _ => []
  class_nested_stream := fun _ => []
  class_interfaces_stream := fun _ => []
  class_num_fields := fun _ => 0
  class_num_methods := fun _ => 0
  domain_assembly_open := fun _ _ => 0
  object_get_domain := fun _ => 0
  field_get_value_object := fun _ _ _ => 0

/-- Runtime whose assignability oracle answers 1 exactly on the pair (5, 7). -/
def rtC2 : Runtime :=
  { rtBase with class_is_assignable_from := fun a b => if a = 5 && b = 7 then 1 else 0 }

/-- Runtime whose name oracles point at the buffer at address 5. -/
def rtC3 : Runtime :=
  { rtBase with
    class_name := fun _ => 5
    class_namespace := fun _ => 5
    field_name := fun _ => 5 }

/-- Heap with one runtime-owned buffer: bytes "hi" at address 5. -/
def heapC3 : Heap :=
  fun q => if q = 5 then some [104, 105] else none

/-- Runtime whose name oracles point at the buffer at address 9. -/
def rtC4 : Runtime :=
  { rtBase with
    class_name := fun _ => 9
    field_name := fun _ => 9 }

/-- Heap with one buffer that is not valid UTF-8 (lone byte 0xFF) at 9. -/
def heapC4 : Heap :=
  fun q => if q = 9 then some [255] else none

/-- Runtime with two non-null field handles and one method handle, whose
count oracles agree with the streams. -/
def rtC6 : Runtime :=
  { rtBase with
    class_fields_stream := fun _ => [11, 12]
    class_num_fields := fun _ => 2
    class_methods_stream := fun _ => [21]
    class_num_methods := fun _ => 1 }

theorem get_fields_loop_takeWhile (stream : List Ptr) :
    Class.get_fields_loop stream
      = (stream.takeWhile (fun p => !(p == 0))).map (fun p => { cf_ptr := p }) := by
  induction stream with
  | nil => rfl
  | cons p rest ih =>
    by_cases hp : p = 0
    · subst hp
      simp [Class.get_fields_loop, ClassField.from_ptr, List.takeWhile_cons]
    · simp [Class.get_fields_loop, ClassField.from_ptr, hp, List.takeWhile_cons, ih]

theorem get_methods_loop_takeWhile (stream : List Ptr) :
    Class.get_methods_loop stream
      = (stream.takeWhile (fun p => !(p == 0))).map (fun p => { m_ptr := p }) := by
  induction stream with
  | nil => rfl
  | cons p rest ih =>
    by_cases hp : p = 0
    · subst hp
      simp [Class.get_methods_loop, Method.from_ptr, List.takeWhile_cons]
    · simp [Class.get_methods_loop, Method.from_ptr, hp, List.takeWhile_cons, ih]

theorem get_classes_loop_takeWhile (stream : List Ptr) :
    Class.get_classes_loop stream
      = (stream.takeWhile (fun p => !(p == 0))).map (fun p => { class_ptr := p }) := by
  induction stream with
  | nil => rfl
  | cons p rest ih =>
    by_cases hp : p = 0
    · subst hp
      simp [Class.get_classes_loop, Class.from_ptr, List.takeWhile_cons]
    · simp [Class.get_classes_loop, Class.from_ptr, hp, List.takeWhile_cons, ih]

theorem takeWhile_ne_zero_eq_self (l : List Ptr) (h : ∀ p ∈ l, p ≠ 0) :
    l.takeWhile (fun p => !(p == 0)) = l := by
  induction l with
  | nil => rfl
  | cons p rest ih =>
    have hp : p ≠ 0 := h p (by simp)
    simp [List.takeWhile_cons, hp, ih (fun q hq => h q (by simp [hq]))]

/-- C1 counterexample: `Domain::from_ptr` performs no null check; constructing
the Domain handle from the null pointer yields a present wrapper whose
internal pointer is null — refuting, at input `0`, the claim that every
entity wrapper (including Domain) maps null to absence and that no public
constructor can produce a present wrapper holding null. -/
theorem c1_counterexample : Domain.get_ptr (Domain.from_ptr 0) = 0 := by
  rfl

/-- C1 (amended): for `Class` and `ClassField`, `from_ptr` yields absence
exactly on the null pointer and otherwise a wrapper holding exactly that
pointer; `Domain::from_ptr`, in contrast, unconditionally wraps its argument
(including null). -/
theorem c1_from_ptr_null (p : Ptr) :
    (Class.from_ptr p = none ↔ p = 0)
  ∧ (Class.from_ptr p).map Class.get_ptr = (if p = 0 then none else some p)
  ∧ (ClassField.from_ptr p = none ↔ p = 0)
  ∧ (ClassField.from_ptr p).map ClassField.get_ptr = (if p = 0 then none else some p)
  ∧ Domain.get_ptr (Domain.from_ptr p) = p := by
  by_cases hp : p = 0 <;>
    simp [Class.from_ptr, Class.get_ptr, ClassField.from_ptr, ClassField.get_ptr,
      Domain.from_ptr, Domain.get_ptr, hp]

/-- C2: the source of `Class::is_assignable_from` passes `self.class_ptr` as
BOTH arguments of `mono_class_is_assignable_from`, never forwarding `other`.
At a runtime whose assignability oracle answers 1 on the pair (5, 7) and 0 on
(5, 5), the wrapper called with self = 5, other = 7 returns `false` even
though the runtime check on (self, other) is nonzero — the predicate does not
forward both of its arguments as claimed. -/
theorem c2_code_bug :
    rtC2.class_is_assignable_from 5 7 = 1
  ∧ rtC2.class_is_assignable_from 5 5 = 0
  ∧ Class.is_assignable_from rtC2 { class_ptr := 5 } { class_ptr := 7 } = false := by
  refine ⟨by decide, by decide, ?_⟩
  decide

/-- C3: `ClassField::get_name` ends in `drop(cstr)` on the `CString` rebuilt
from the runtime-owned name pointer, deallocating the runtime's buffer —
unlike `Class::get_name`, which returns ownership with `into_raw()`.  At a
heap holding the name bytes "hi" at address 5: the Class accessor leaves the
buffer allocated, the ClassField accessor succeeds but frees it, refuting the
claim that none of the three accessors releases the runtime-owned buffer. -/
theorem c3_code_bug :
    heapC3 5 = some [104, 105]
  ∧ (Class.get_name rtC3 heapC3 { class_ptr := 1 }).fst = Outcome.ok [104, 105]
  ∧ (Class.get_name rtC3 heapC3 { class_ptr := 1 }).snd 5 = some [104, 105]
  ∧ (Class.get_namespace rtC3 heapC3 { class_ptr := 1 }).snd 5 = some [104, 105]
  ∧ (ClassField.get_name rtC3 heapC3 { cf_ptr := 2 }).fst = Outcome.ok [104, 105]
  ∧ (ClassField.get_name rtC3 heapC3 { cf_ptr := 2 }).snd 5 = none := by
  decide

/-- C4: on a foreign name whose bytes are not valid UTF-8 (the single byte
0xFF), both `Class::get_name` and `ClassField::get_name` abort through
`expect` instead of returning a recoverable marshal error: the decode failure
is fatal in the source, as the spec itself records in its design
correction. -/
theorem c4_code_bug :
    validUtf8 [255] = false
  ∧ (Class.get_name rtC4 heapC4 { class_ptr := 1 }).fst = Outcome.panicked
  ∧ (ClassField.get_name rtC4 heapC4 { cf_ptr := 2 }).fst = Outcome.panicked := by
  decide

/-- C5: each collection accessor walks the null-seeded cursor sequence in a
single pass and returns, in the runtime's order, exactly the items the
next-item calls yield before the first null result; an empty collection
yields the empty sequence, not an error. -/
theorem c5_enumeration (rt : Runtime) (c : Class) :
    Class.get_fields rt c
      = ((rt.class_fields_stream c.class_ptr).takeWhile (fun p => !(p == 0))).map
          (fun p => { cf_ptr := p })
  ∧ Class.get_methods rt c
      = ((rt.class_methods_stream c.class_ptr).takeWhile (fun p => !(p == 0))).map
          (fun p => { m_ptr := p })
  ∧ Class.get_nested_types rt c
      = ((rt.class_nested_stream c.class_ptr).takeWhile (fun p => !(p == 0))).map
          (fun p => { class_ptr := p })
  ∧ Class.get_interfaces rt c
      = ((rt.class_interfaces_stream c.class_ptr).takeWhile (fun p => !(p == 0))).map
          (fun p => { class_ptr := p })
  ∧ (rt.class_fields_stream c.class_ptr = [] → Class.get_fields rt c = [])
  ∧ (rt.class_methods_stream c.class_ptr = [] → Class.get_methods rt c = []) := by
  refine ⟨get_fields_loop_takeWhile _, get_methods_loop_takeWhile _,
    get_classes_loop_takeWhile _, get_classes_loop_takeWhile _, ?_, ?_⟩
  · intro h
    simp [Class.get_fields, h, Class.get_fields_loop]
  · intro h
    simp [Class.get_methods, h, Class.get_methods_loop]

/-- C5 witness: at the all-empty runtime, both empty-collection hypotheses
hold and the accessors return empty sequences. -/
theorem c5_enumeration_witness :
    Class.get_fields rtBase { class_ptr := 1 } = []
  ∧ Class.get_methods rtBase { class_ptr := 1 } = [] := by
  have h := c5_enumeration rtBase { class_ptr := 1 }
  exact ⟨h.2.2.2.2.1 rfl, h.2.2.2.2.2 rfl⟩

/-- C6: when the runtime's count oracles agree with its enumeration sequences
(every yielded handle non-null, count = sequence length — the consistency the
managed metadata tables provide), the length of `get_fields` equals
`num_fields` and the length of `get_methods` equals `num_methods`. -/
theorem c6_counts (rt : Runtime) (c : Class)
    (hf : ∀ p ∈ rt.class_fields_stream c.class_ptr, p ≠ 0)
    (hm : ∀ p ∈ rt.class_methods_stream c.class_ptr, p ≠ 0)
    (hnf : rt.class_num_fields c.class_ptr
      = ((rt.class_fields_stream c.class_ptr).length : Int))
    (hnm : rt.class_num_methods c.class_ptr
      = ((rt.class_methods_stream c.class_ptr).length : Int)) :
    ((Class.get_fields rt c).length : Int) = Class.num_fields rt c
  ∧ ((Class.get_methods rt c).length : Int) = Class.num_methods rt c := by
  constructor
  · rw [Class.get_fields, get_fields_loop_takeWhile, takeWhile_ne_zero_eq_self _ hf]
    simp [Class.num_fields, hnf]
  · rw [Class.get_methods, get_methods_loop_takeWhile, takeWhile_ne_zero_eq_self _ hm]
    simp [Class.num_methods, hnm]

/-- C6 witness: a runtime with two field handles and one method handle whose
count oracles answer 2 and 1. -/
theorem c6_counts_witness :
    ((Class.get_fields rtC6 { class_ptr := 1 }).length : Int)
      = Class.num_fields rtC6 { class_ptr := 1 }
  ∧ ((Class.get_methods rtC6 { class_ptr := 1 }).length : Int)
      = Class.num_methods rtC6 { class_ptr := 1 } :=
  c6_counts rtC6 { class_ptr := 1 } (by decide) (by decide) (by decide) (by decide)

/-- C7: for inputs without interior NUL, `Class::from_name`,
`Class::get_field_from_name` and `Domain::assembly_open` complete without
aborting, issue exactly one foreign call, and return `None` exactly when that
call yields the null pointer, otherwise `Some` wrapping the non-null
result. -/
theorem c7_absence (rt : Runtime) (image : Ptr) (d : Domain) (c : Class)
    (ns nm fname path : List Nat)
    (hns : 0 ∉ ns) (hnm : 0 ∉ nm) (hfn : 0 ∉ fname) (hpa : 0 ∉ path) :
    Class.from_name rt image ns nm
      = (Outcome.ok (if rt.class_from_name image ns nm = 0 then none
          else some { class_ptr := rt.class_from_name image ns nm }),
         [FCall.classFromName image ns nm])
  ∧ Class.get_field_from_name rt c fname
      = (Outcome.ok (if rt.class_get_field_from_name c.class_ptr fname = 0 then none
          else some { cf_ptr := rt.class_get_field_from_name c.class_ptr fname }),
         [FCall.classGetFieldFromName c.class_ptr fname])
  ∧ Domain.assembly_open rt d path
      = (Outcome.ok (if rt.domain_assembly_open d.ptr path = 0 then none
          else some { a_ptr := rt.domain_assembly_open d.ptr path }),
         [FCall.domainAssemblyOpen d.ptr path]) := by
  refine ⟨?_, ?_, ?_⟩
  · simp only [Class.from_name, cstringNew, if_neg hns, if_neg hnm, Class.from_ptr]
  · simp only [Class.get_field_from_name, cstringNew, if_neg hfn, ClassField.from_ptr]
  · simp only [Domain.assembly_open, cstringNew, if_neg hpa]
    by_cases h0 : rt.domain_assembly_open d.ptr path = 0 <;>
      simp [h0, Assembly.from_ptr]

/-- C7 witness: at the all-null runtime with NUL-free inputs, every lookup
returns `None` without aborting. -/
theorem c7_absence_witness :
    Class.from_name rtBase 1 [65] [66]
      = (Outcome.ok none, [FCall.classFromName 1 [65] [66]])
  ∧ Domain.assembly_open rtBase { ptr := 2 } [68]
      = (Outcome.ok none, [FCall.domainAssemblyOpen 2 [68]]) := by
  have h := c7_absence rtBase 1 { ptr := 2 } { class_ptr := 3 } [65] [66] [67] [68]
    (by decide) (by decide) (by decide) (by decide)
  refine ⟨?_, ?_⟩
  · have h1 := h.1
    simpa [rtBase] using h1
  · have h3 := h.2.2
    simpa [rtBase] using h3

/-- C8: wrapper equality on `Class` and `Domain` is raw-pointer identity,
hence an equivalence relation; and `get_ptr` after `from_ptr` projects back
exactly the constructing pointer (for any non-null pointer on the optional
constructors, for every pointer on `Domain`). -/
theorem c8_pointer_identity (a b c : Class) (d e f : Domain) (p : Ptr) :
    (Class.eq a b = true ↔ a.class_ptr = b.class_ptr)
  ∧ (Domain.eq d e = true ↔ d.ptr = e.ptr)
  ∧ Class.eq a a = true
  ∧ Class.eq a b = Class.eq b a
  ∧ (Class.eq a b = true → Class.eq b c = true → Class.eq a c = true)
  ∧ Domain.eq d d = true
  ∧ Domain.eq d e = Domain.eq e d
  ∧ (Domain.eq d e = true → Domain.eq e f = true → Domain.eq d f = true)
  ∧ (p ≠ 0 → (Class.from_ptr p).map Class.get_ptr = some p
      ∧ (ClassField.from_ptr p).map ClassField.get_ptr = some p)
  ∧ Domain.get_ptr (Domain.from_ptr p) = p := by
  refine ⟨?_, ?_, ?_, ?_, ?_, ?_, ?_, ?_, ?_, rfl⟩
  · simp [Class.eq]
  · simp [Domain.eq]
  · simp [Class.eq]
  · rw [Bool.eq_iff_iff]
    simp only [Class.eq, beq_iff_eq]
    exact eq_comm
  · intro h1 h2
    simp only [Class.eq, beq_iff_eq] at h1 h2 ⊢
    exact h1.trans h2
  · simp [Domain.eq]
  · rw [Bool.eq_iff_iff]
    simp only [Domain.eq, beq_iff_eq]
    exact eq_comm
  · intro h1 h2
    simp only [Domain.eq, beq_iff_eq] at h1 h2 ⊢
    exact h1.trans h2
  · intro hp
    constructor <;> simp [Class.from_ptr, ClassField.from_ptr, hp,
      Class.get_ptr, ClassField.get_ptr]

/-- C8 witness: concrete wrappers at pointers 1 and 2, with projection
round-trip at the non-null pointer 3. -/
theorem c8_pointer_identity_witness :
    Class.eq { class_ptr := 1 } { class_ptr := 1 } = true
  ∧ (Class.from_ptr 3).map Class.get_ptr = some 3
  ∧ (ClassField.from_ptr 3).map ClassField.get_ptr = some 3 := by
  have h := c8_pointer_identity { class_ptr := 1 } { class_ptr := 1 } { class_ptr := 1 }
    { ptr := 2 } { ptr := 2 } { ptr := 2 } 3
  obtain ⟨-, -, h3, -, -, -, -, -, h9, -⟩ := h
  obtain ⟨h9a, h9b⟩ := h9 (by decide)
  exact ⟨h3, h9a, h9b⟩

/-- C9: `ClassField::get_value_object` issues its single foreign read with
the Domain taken from the instance itself (`mono_object_get_domain` on the
instance), and wraps the foreign result as `Some` exactly when it is
non-null. -/
theorem c9_value_in_own_domain (rt : Runtime) (fld : ClassField) (o : Object) :
    (ClassField.get_value_object rt fld o).snd
      = { dom := rt.object_get_domain o.obj_ptr, field := fld.cf_ptr, obj := o.obj_ptr }
  ∧ ((ClassField.get_value_object rt fld o).fst = none
      ↔ rt.field_get_value_object (rt.object_get_domain o.obj_ptr) fld.cf_ptr o.obj_ptr = 0)
  ∧ (ClassField.get_value_object rt fld o).fst.map Object.get_ptr
      = (if rt.field_get_value_object (rt.object_get_domain o.obj_ptr) fld.cf_ptr o.obj_ptr = 0
         then none
         else some (rt.field_get_value_object
            (rt.object_get_domain o.obj_ptr) fld.cf_ptr o.obj_ptr)) := by
  refine ⟨rfl, ?_, ?_⟩ <;>
    by_cases h0 : rt.field_get_value_object
        (rt.object_get_domain o.obj_ptr) fld.cf_ptr o.obj_ptr = 0 <;>
      simp [ClassField.get_value_object, Object.get_domain, Domain.from_ptr,
        Object.from_ptr, Object.get_ptr, h0]

/-- C10: every public operation taking a native string (`Class::from_name`,
`Class::get_field_from_name`, `Domain::assembly_open`, `Domain::set_config`)
aborts on an input containing an interior NUL byte before any foreign call is
issued: the result is the abort outcome and the issued-call trace is
empty. -/
theorem c10_interior_nul (rt : Runtime) (image : Ptr) (c : Class) (dom : Domain)
    (ns nm fname path bd cfg : List Nat)
    (h1 : 0 ∈ ns ∨ 0 ∈ nm) (h2 : 0 ∈ fname) (h3 : 0 ∈ path)
    (h4 : 0 ∈ bd ∨ 0 ∈ cfg) :
    Class.from_name rt image ns nm = (Outcome.panicked, [])
  ∧ Class.get_field_from_name rt c fname = (Outcome.panicked, [])
  ∧ Domain.assembly_open rt dom path = (Outcome.panicked, [])
  ∧ Domain.set_config dom bd cfg = (Outcome.panicked, []) := by
  refine ⟨?_, ?_, ?_, ?_⟩
  · rcases h1 with h | h
    · simp [Class.from_name, cstringNew, h]
    · by_cases hns : 0 ∈ ns <;> simp [Class.from_name, cstringNew, hns, h]
  · simp [Class.get_field_from_name, cstringNew, h2]
  · simp [Domain.assembly_open, cstringNew, h3]
  · rcases h4 with h | h
    · simp [Domain.set_config, cstringNew, h]
    · by_cases hbd : 0 ∈ bd <;> simp [Domain.set_config, cstringNew, hbd, h]

/-- C10 witness: the single-byte NUL string as every native string input. -/
theorem c10_interior_nul_witness :
    Class.from_name rtBase 1 [0] [0] = (Outcome.panicked, [])
  ∧ Domain.set_config { ptr := 2 } [0] [0] = (Outcome.panicked, []) := by
  have h := c10_interior_nul rtBase 1 { class_ptr := 3 } { ptr := 2 }
    [0] [0] [0] [0] [0] [0] (Or.inl (by decide)) (by decide) (by decide)
    (Or.inl (by decide))
  exact ⟨h.1, h.2.2.2⟩

end WrappedMono
